import Mathlib

/-!
Shallow embedding of the feature-flag client service of this repository
(`isFeatureEnabled`, `clearFeatureFlagCache`, `getAllFeatureFlags`,
`createFeatureFlag`, `updateFeatureFlag`, `deleteFeatureFlag`,
`createFeatureOverride`, `deleteFeatureOverride`), together with the
resolution engine described by the specification.

The service keeps a module-level cache object `featureFlagCache` keyed by
the string `feature_flag:${flagKey}`, holding `{ enabled, timestamp }`
records, with a fixed TTL of five minutes.  Network effects (`getAuthToken`,
`fetch`) are modelled by explicit environment parameters: the auth token is
an `Option String` and each request's outcome is a `FetchOutcome` value
(either an HTTP response with its `ok` flag, `statusText` and JSON payload,
or a thrown network error).  Thrown JavaScript errors become `Except`
results; functions that swallow errors (the `isFeatureEnabled` check)
return plain values.
-/

namespace FeatureFlags

/-- Millisecond timestamps, as produced by `Date.now()`. -/
abbrev Timestamp := Nat

/-- One record of the module-level `featureFlagCache` object:
`{ enabled: ..., timestamp: Date.now() }`. -/
structure CacheEntry where
  enabled : Bool
  timestamp : Timestamp
deriving DecidableEq, Repr

/-- The `featureFlagCache` JavaScript object: string keys to entries. -/
abbrev Cache := List (String × CacheEntry)

/-- Constant `CACHE_TTL = 5 * 60 * 1000` — five minutes in milliseconds. -/
def CACHE_TTL : Nat := 5 * 60 * 1000

/-- Property lookup on the cache object (`featureFlagCache[cacheKey]`). -/
def cacheLookup (c : Cache) (k : String) : Option CacheEntry :=
  match c.find? (fun p => p.fst == k) with
  | some p => some p.snd
  | none => none

/-- Property assignment on the cache object
(`featureFlagCache[cacheKey] = { enabled, timestamp }`): overwrite the
existing key or add it. -/
def cacheInsert (c : Cache) (k : String) (e : CacheEntry) : Cache :=
  match c with
  | [] => [(k, e)]
  | (k', e') :: rest =>
    if k' == k then (k, e) :: rest else (k', e') :: cacheInsert rest k e

/-- Function `clearFeatureFlagCache()`: deletes every key of `featureFlagCache`. -/
def clearFeatureFlagCache (_c : Cache) : Cache := []

/-- The cache key built by the service: `feature_flag:${flagKey}`. -/
def cacheKeyOf (flagKey : String) : String := "feature_flag:" ++ flagKey

/-- An HTTP response as the client observes it: `ok`, `statusText`, and the
parsed JSON payload. -/
structure HttpResp (α : Type) where
  ok : Bool
  statusText : String
  json : α
deriving DecidableEq, Repr

/-- Outcome of one `fetch` call: either a response, or a thrown network
error (rejected promise). -/
inductive FetchOutcome (α : Type) where
  | resp (r : HttpResp α)
  | netThrow (msg : String)
deriving DecidableEq, Repr

/-- Payload of `GET /api/feature-flags/status/{flagKey}`: `{ enabled }`. -/
structure StatusData where
  enabled : Bool
deriving DecidableEq, Repr

/-- The ambient effects visible to one `isFeatureEnabled` call: the auth
token `getAuthToken()` yields, the status endpoint's behaviour as a
function of flag key and bearer token, and the current clock. -/
structure Env where
  token : Option String
  statusResp : String → String → FetchOutcome StatusData
  now : Timestamp

/-- The miss path of `isFeatureEnabled` (lines after the cache check):
read the token, fetch the status endpoint, cache and return `data.enabled`
on an ok response, and return `false` on a missing token, a non-ok
response, or a thrown error. -/
def fetchAndCache (env : Env) (cache : Cache) (flagKey : String) :
    Bool × Cache :=
  match env.token with
  | none => (false, cache)
  | some tok =>
    match env.statusResp flagKey tok with
    | .netThrow _ => (false, cache)
    | .resp r =>
      if r.ok then
        (r.json.enabled,
         cacheInsert cache (cacheKeyOf flagKey) ⟨r.json.enabled, env.now⟩)
      else
        (false, cache)

/-- Function `isFeatureEnabled(flagKey)`: return the cached verdict when the entry
exists and `Date.now() - timestamp < CACHE_TTL`; otherwise fall through to
the fetch path.  The result is the returned boolean together with the
cache left behind. -/
def isFeatureEnabled (env : Env) (cache : Cache) (flagKey : String) :
    Bool × Cache :=
  match cacheLookup cache (cacheKeyOf flagKey) with
  | some e =>
    if env.now - e.timestamp < CACHE_TTL then (e.enabled, cache)
    else fetchAndCache env cache flagKey
  | none => fetchAndCache env cache flagKey

/-- Errors thrown by the admin operations: `Error('Not authenticated')`
before any request, a constructed `Error` for a non-ok response, or the
rethrown network error. -/
inductive AdminError where
  | notAuthenticated
  | requestFailed (msg : String)
  | netError (msg : String)
deriving DecidableEq, Repr

/-- What one admin call leaves behind: its returned value or thrown error,
the cache afterwards, and how many backend requests it performed. -/
structure MutResult (α : Type) where
  result : Except AdminError α
  cache : Cache
  fetches : Nat
deriving Repr

/-- Payload of `GET /api/feature-flags`: `{ flags }`. -/
structure FlagsData (α : Type) where
  flags : List α
deriving DecidableEq, Repr

/-- Function `getAllFeatureFlags()`: requires a token, fetches the flag list, and
returns `data.flags` on ok; throws otherwise.  The cache is not consulted,
written, or cleared. -/
def getAllFeatureFlags {α : Type} (token : Option String)
    (resp : FetchOutcome (FlagsData α)) (cache : Cache) :
    MutResult (List α) :=
  match token with
  | none => ⟨.error .notAuthenticated, cache, 0⟩
  | some _ =>
    match resp with
    | .netThrow m => ⟨.error (.netError m), cache, 1⟩
    | .resp r =>
      if r.ok then ⟨.ok r.json.flags, cache, 1⟩
      else
        ⟨.error (.requestFailed ("Error fetching feature flags: " ++
            r.statusText)), cache, 1⟩

/-- Function `createFeatureFlag(flagData)`: requires a token, POSTs the flag, and on
an ok response clears the whole cache and returns the created flag; throws
otherwise, leaving the cache untouched. -/
def createFeatureFlag {α : Type} (token : Option String)
    (resp : FetchOutcome α) (cache : Cache) (_flagData : α) : MutResult α :=
  match token with
  | none => ⟨.error .notAuthenticated, cache, 0⟩
  | some _ =>
    match resp with
    | .netThrow m => ⟨.error (.netError m), cache, 1⟩
    | .resp r =>
      if r.ok then ⟨.ok r.json, clearFeatureFlagCache cache, 1⟩
      else
        ⟨.error (.requestFailed ("Error creating feature flag: " ++
            r.statusText)), cache, 1⟩

/-- Function `updateFeatureFlag(flagKey, flagData)`: requires a token, PUTs the
patch, and on an ok response clears the whole cache and returns the updated
flag; throws otherwise, leaving the cache untouched. -/
def updateFeatureFlag {α : Type} (token : Option String)
    (resp : FetchOutcome α) (cache : Cache) (_flagKey : String)
    (_flagData : α) : MutResult α :=
  match token with
  | none => ⟨.error .notAuthenticated, cache, 0⟩
  | some _ =>
    match resp with
    | .netThrow m => ⟨.error (.netError m), cache, 1⟩
    | .resp r =>
      if r.ok then ⟨.ok r.json, clearFeatureFlagCache cache, 1⟩
      else
        ⟨.error (.requestFailed ("Error updating feature flag: " ++
            r.statusText)), cache, 1⟩

/-- Function `deleteFeatureFlag(flagKey)`: requires a token, DELETEs the flag, and
on an ok response clears the whole cache and returns `true`; throws
otherwise, leaving the cache untouched. -/
def deleteFeatureFlag (token : Option String) (resp : FetchOutcome Unit)
    (cache : Cache) (_flagKey : String) : MutResult Bool :=
  match token with
  | none => ⟨.error .notAuthenticated, cache, 0⟩
  | some _ =>
    match resp with
    | .netThrow m => ⟨.error (.netError m), cache, 1⟩
    | .resp r =>
      if r.ok then ⟨.ok true, clearFeatureFlagCache cache, 1⟩
      else
        ⟨.error (.requestFailed ("Error deleting feature flag: " ++
            r.statusText)), cache, 1⟩

/-- Function `createFeatureOverride(overrideData)`: requires a token, POSTs the
override, and on an ok response clears the whole cache and returns the
created override; throws otherwise, leaving the cache untouched. -/
def createFeatureOverride {α : Type} (token : Option String)
    (resp : FetchOutcome α) (cache : Cache) (_overrideData : α) :
    MutResult α :=
  match token with
  | none => ⟨.error .notAuthenticated, cache, 0⟩
  | some _ =>
    match resp with
    | .netThrow m => ⟨.error (.netError m), cache, 1⟩
    | .resp r =>
      if r.ok then ⟨.ok r.json, clearFeatureFlagCache cache, 1⟩
      else
        ⟨.error (.requestFailed ("Error creating feature override: " ++
            r.statusText)), cache, 1⟩

/-- Function `deleteFeatureOverride(flagKey, userId)`: requires a token, DELETEs the
override, and on an ok response clears the whole cache and returns `true`;
throws otherwise, leaving the cache untouched. -/
def deleteFeatureOverride (token : Option String) (resp : FetchOutcome Unit)
    (cache : Cache) (_flagKey _userId : String) : MutResult Bool :=
  match token with
  | none => ⟨.error .notAuthenticated, cache, 0⟩
  | some _ =>
    match resp with
    | .netThrow m => ⟨.error (.netError m), cache, 1⟩
    | .resp r =>
      if r.ok then ⟨.ok true, clearFeatureFlagCache cache, 1⟩
      else
        ⟨.error (.requestFailed ("Error deleting feature override: " ++
            r.statusText)), cache, 1⟩

/-- A request outcome on which the admin call throws: a thrown network
error or a non-ok response. -/
def outcomeFails {α : Type} : FetchOutcome α → Prop
  | .netThrow _ => True
  | .resp r => r.ok = false

instance {α : Type} (o : FetchOutcome α) : Decidable (outcomeFails o) := by
  cases o with
  | resp r => exact (inferInstance : Decidable (r.ok = false))
  | netThrow _ => exact (inferInstance : Decidable True)

/-- Did the admin call return normally rather than throwing? -/
def MutResult.isSuccess {α : Type} (m : MutResult α) : Bool :=
  match m.result with
  | .ok _ => true
  | .error _ => false

/-- Fixture: a backend whose status endpoint answers ok with `false`,
observed five minutes into the epoch minus four. -/
def envFresh : Env := ⟨some "tok", fun _ _ => .resp ⟨true, "OK", ⟨false⟩⟩, 1000⟩

/-- Fixture: no auth token is available; the backend would answer 404. -/
def envNoToken : Env := ⟨none, fun _ _ => .resp ⟨false, "Not Found", ⟨false⟩⟩, 0⟩

/-- Fixture: the backend is unreachable — every `fetch` rejects. -/
def envDown : Env := ⟨some "tok", fun _ _ => .netThrow "down", 0⟩

/-- Fixture: the status verdict depends on the caller — the bearer token
of user A yields `true`, every other caller's token yields `false`. -/
def respByUser : String → String → FetchOutcome StatusData :=
  fun _ tok =>
    if tok == "tokenA" then .resp ⟨true, "OK", ⟨true⟩⟩
    else .resp ⟨true, "OK", ⟨false⟩⟩

/-- Fixture: user A's view of the backend at time 0. -/
def envUserA : Env := ⟨some "tokenA", respByUser, 0⟩

/-- Fixture: user B's view of the same backend one second later. -/
def envUserB : Env := ⟨some "tokenB", respByUser, 1000⟩

/-- Fixture: one fresh cache entry for flag `beta`. -/
def cacheOne : Cache := [(cacheKeyOf "beta", ⟨true, 0⟩)]

/-- Fixture: cache entries for two unrelated flags. -/
def cacheTwoFlags : Cache :=
  [(cacheKeyOf "alpha", ⟨true, 0⟩), (cacheKeyOf "beta", ⟨false, 0⟩)]

end FeatureFlags

namespace ResolutionEngine

open FeatureFlags (Timestamp)

/-- Modelled from the spec: the ordinal subscription tiers
`free < basic < pro < enterprise` of the Principal data model; the
resolution engine itself has no source under `src/`. -/
inductive Tier where
  | free | basic | pro | enterprise
deriving DecidableEq, Repr

/-- Modelled from the spec: the ordinal of a tier, used for the
tier-gate comparison. -/
def Tier.ord : Tier → Nat
  | .free => 0
  | .basic => 1
  | .pro => 2
  | .enterprise => 3

/-- Modelled from the spec: a FlagDefinition (display metadata omitted —
the spec states it has no semantic effect on resolution). -/
structure FlagDefinition where
  key : String
  enabled : Bool
  minSubscriptionTier : Option Tier
  percentageRollout : Nat
  startDate : Option Timestamp
  endDate : Option Timestamp
deriving DecidableEq, Repr

/-- Modelled from the spec: a per-user FlagOverride with composite
identity `(flagKey, userId)`. -/
structure FlagOverride where
  flagKey : String
  userId : String
  enabled : Bool
deriving DecidableEq, Repr

/-- Modelled from the spec: the requesting Principal. -/
structure Principal where
  userId : String
  subscriptionTier : Tier
deriving DecidableEq, Repr

/-- Modelled from the spec: a deterministic hash of
`(flagKey, userId)` mapped onto `[0, 100)` for percentage bucketing. -/
def bucketOf (flagKey userId : String) : Nat :=
  ((flagKey ++ ":" ++ userId).data.foldl
    (fun acc c => acc * 31 + c.toNat) 7) % 100

/-- Modelled from the spec: `now` inside the optional inclusive
`[startDate, endDate]` window. -/
def inWindow (flag : FlagDefinition) (now : Timestamp) : Bool :=
  (match flag.startDate with
   | some s => decide (s ≤ now)
   | none => true) &&
  (match flag.endDate with
   | some e => decide (now ≤ e)
   | none => true)

/-- Modelled from the spec: `evaluate(flag, override, principal, now)`,
the tiered pipeline — override, global kill switch, date window, tier
gate, rollout boundaries, stable bucket. -/
def evaluate (flag : FlagDefinition) (override : Option FlagOverride)
    (principal : Principal) (now : Timestamp) : Bool :=
  match override with
  | some o => o.enabled
  | none =>
    if flag.enabled = false then false
    else if inWindow flag now = false then false
    else
      match flag.minSubscriptionTier with
      | some t =>
        if principal.subscriptionTier.ord < t.ord then false
        else
          if flag.percentageRollout = 100 then true
          else if flag.percentageRollout = 0 then false
          else decide (bucketOf flag.key principal.userId <
            flag.percentageRollout)
      | none =>
        if flag.percentageRollout = 100 then true
        else if flag.percentageRollout = 0 then false
        else decide (bucketOf flag.key principal.userId <
          flag.percentageRollout)

/-- Modelled from the spec: find the override for
`(flag.key, principal.userId)`. -/
def lookupOverride (ovs : List FlagOverride) (flagKey userId : String) :
    Option FlagOverride :=
  ovs.find? (fun o => o.flagKey == flagKey && o.userId == userId)

/-- Modelled from the spec: resolve a flag for a principal given the
current override set. -/
def resolve (ovs : List FlagOverride) (flag : FlagDefinition)
    (principal : Principal) (now : Timestamp) : Bool :=
  evaluate flag (lookupOverride ovs flag.key principal.userId) principal now

end ResolutionEngine

namespace FeatureFlags

/-! Helper lemmas about the read path, shared by the theorems below. -/

/-- On a present and fresh entry, the check returns the cached verdict and
leaves the cache untouched. -/
theorem isFeatureEnabled_hit (env : Env) (cache : Cache) (flagKey : String)
    (e : CacheEntry) (hl : cacheLookup cache (cacheKeyOf flagKey) = some e)
    (hf : env.now - e.timestamp < CACHE_TTL) :
    isFeatureEnabled env cache flagKey = (e.enabled, cache) := by
  simp [isFeatureEnabled, hl, hf]

/-- When every present entry for the key is expired (in particular when
none is present), the check runs the fetch path. -/
theorem isFeatureEnabled_of_stale (env : Env) (cache : Cache)
    (flagKey : String)
    (hmiss : ∀ e, cacheLookup cache (cacheKeyOf flagKey) = some e →
      CACHE_TTL ≤ env.now - e.timestamp) :
    isFeatureEnabled env cache flagKey = fetchAndCache env cache flagKey := by
  cases hl : cacheLookup cache (cacheKeyOf flagKey) with
  | none => simp [isFeatureEnabled, hl]
  | some e =>
    have hs := hmiss e hl
    simp [isFeatureEnabled, hl, Nat.not_lt.mpr hs]

/-- When the token is missing or the status request fails, the fetch path
returns `false` and writes nothing. -/
theorem fetchAndCache_fails (env : Env) (cache : Cache) (flagKey : String)
    (hfail : ∀ tok, env.token = some tok →
      outcomeFails (env.statusResp flagKey tok)) :
    fetchAndCache env cache flagKey = (false, cache) := by
  cases htok : env.token with
  | none => simp [fetchAndCache, htok]
  | some tok =>
    have hf := hfail tok htok
    cases hr : env.statusResp flagKey tok with
    | netThrow m => simp [fetchAndCache, htok, hr]
    | resp r =>
      rw [hr] at hf
      simp only [outcomeFails] at hf
      simp [fetchAndCache, htok, hr, hf]

/-- The fetch path changes the cache only by recording the verdict of an
ok response. -/
theorem fetchAndCache_changed (env : Env) (cache : Cache) (flagKey : String)
    (hch : (fetchAndCache env cache flagKey).2 ≠ cache) :
    ∃ tok r, env.token = some tok ∧
      env.statusResp flagKey tok = FetchOutcome.resp r ∧ r.ok = true ∧
      (fetchAndCache env cache flagKey).2 =
        cacheInsert cache (cacheKeyOf flagKey) ⟨r.json.enabled, env.now⟩ ∧
      (fetchAndCache env cache flagKey).1 = r.json.enabled := by
  cases htok : env.token with
  | none =>
    have heq : fetchAndCache env cache flagKey = (false, cache) := by
      simp [fetchAndCache, htok]
    rw [heq] at hch
    exact absurd rfl hch
  | some tok =>
    cases hr : env.statusResp flagKey tok with
    | netThrow m =>
      have heq : fetchAndCache env cache flagKey = (false, cache) := by
        simp [fetchAndCache, htok, hr]
      rw [heq] at hch
      exact absurd rfl hch
    | resp r =>
      by_cases hok : r.ok = true
      · have heq : fetchAndCache env cache flagKey =
            (r.json.enabled,
             cacheInsert cache (cacheKeyOf flagKey) ⟨r.json.enabled, env.now⟩) := by
          simp [fetchAndCache, htok, hr, hok]
        exact ⟨tok, r, rfl, hr, hok, by rw [heq], by rw [heq]⟩
      · have hko : r.ok = false := by simpa using hok
        have heq : fetchAndCache env cache flagKey = (false, cache) := by
          simp [fetchAndCache, htok, hr, hko]
        rw [heq] at hch
        exact absurd rfl hch

/-- C1: after a successful `updateFeatureFlag` call the cache is empty, so
every previously cached verdict (for every user of this client) is gone:
the next `isFeatureEnabled` call for any key — in particular the updated
one — runs the fetch path against the store rather than serving a verdict
cached before the update. -/
theorem updateFlag_invalidation_correct {α : Type} (tok : String)
    (r : HttpResp α) (cache : Cache) (flagKey : String) (flagData : α)
    (hok : r.ok = true) :
    (updateFeatureFlag (some tok) (.resp r) cache flagKey flagData).cache =
      [] ∧
    ∀ (env : Env) (k : String),
      cacheLookup
        (updateFeatureFlag (some tok) (.resp r) cache flagKey flagData).cache
        (cacheKeyOf k) = none ∧
      isFeatureEnabled env
        (updateFeatureFlag (some tok) (.resp r) cache flagKey flagData).cache
        k = fetchAndCache env [] k := by
  have hc :
      (updateFeatureFlag (some tok) (.resp r) cache flagKey flagData).cache =
        [] := by
    simp [updateFeatureFlag, hok, clearFeatureFlagCache]
  refine ⟨hc, fun env k => ?_⟩
  rw [hc]
  exact ⟨rfl, rfl⟩

/-- Witness for C1 at a concrete successful update. -/
theorem updateFlag_invalidation_correct_witness :
    (updateFeatureFlag (some "tok") (FetchOutcome.resp ⟨true, "OK", (0 : Nat)⟩)
      cacheOne "beta" 0).cache = [] :=
  (updateFlag_invalidation_correct "tok" ⟨true, "OK", (0 : Nat)⟩ cacheOne
    "beta" 0 rfl).1

/-- C2: the TTL is fixed at five minutes; a verdict written at `t0` is
returned unchanged by any read at `t` with `t - t0 < CACHE_TTL`, and a
read with `t - t0 ≥ CACHE_TTL` runs exactly the cold-miss path, as does a
read with no entry at all. -/
theorem cache_ttl_semantics (env : Env) (cache : Cache) (flagKey : String) :
    CACHE_TTL = 5 * 60 * 1000 ∧
    (∀ e, cacheLookup cache (cacheKeyOf flagKey) = some e →
      (env.now - e.timestamp < CACHE_TTL →
        isFeatureEnabled env cache flagKey = (e.enabled, cache)) ∧
      (CACHE_TTL ≤ env.now - e.timestamp →
        isFeatureEnabled env cache flagKey =
          fetchAndCache env cache flagKey)) ∧
    (cacheLookup cache (cacheKeyOf flagKey) = none →
      isFeatureEnabled env cache flagKey = fetchAndCache env cache flagKey)
    := by
  refine ⟨rfl, fun e he => ⟨fun hf => ?_, fun hs => ?_⟩, fun hn => ?_⟩
  · exact isFeatureEnabled_hit env cache flagKey e he hf
  · refine isFeatureEnabled_of_stale env cache flagKey ?_
    intro e2 he2
    rw [he] at he2
    injection he2 with h
    rw [← h]
    exact hs
  · refine isFeatureEnabled_of_stale env cache flagKey ?_
    intro e2 he2
    rw [hn] at he2
    exact Option.noConfusion he2

/-- Witness for C2: a fresh entry is served unchanged. -/
theorem cache_ttl_semantics_witness :
    isFeatureEnabled envFresh cacheOne "beta" = (true, cacheOne) :=
  ((cache_ttl_semantics envFresh cacheOne "beta").2.1 ⟨true, 0⟩
    (by decide)).1 (by decide)

/-- C3: the public check never propagates an error (its type returns a
plain boolean) and, whenever the cache has no fresh verdict to serve, it
returns `false` if the token is missing or the status request for the key
fails — a non-ok response, which is how a nonexistent flag presents, or a
thrown error. -/
theorem isFeatureEnabled_fail_closed (env : Env) (cache : Cache)
    (flagKey : String)
    (hmiss : ∀ e, cacheLookup cache (cacheKeyOf flagKey) = some e →
      CACHE_TTL ≤ env.now - e.timestamp)
    (hfail : ∀ tok, env.token = some tok →
      outcomeFails (env.statusResp flagKey tok)) :
    (isFeatureEnabled env cache flagKey).1 = false := by
  rw [isFeatureEnabled_of_stale env cache flagKey hmiss,
    fetchAndCache_fails env cache flagKey hfail]

/-- Witness for C3: a never-defined key with no token available. -/
theorem isFeatureEnabled_fail_closed_witness :
    (isFeatureEnabled envNoToken [] "nonexistent-key").1 = false :=
  isFeatureEnabled_fail_closed envNoToken [] "nonexistent-key"
    (fun e he => by simp [cacheLookup] at he)
    (fun tok htok => by simp [envNoToken] at htok)

/-- C9: `getAllFeatureFlags` is a passthrough read — it performs one live
request, returns the store's flag list on an ok response, leaves the cache
untouched (also when the request throws), and its result is the same
whatever the cache contains. -/
theorem getAllFeatureFlags_passthrough {α : Type} (tok : String)
    (r : HttpResp (FlagsData α)) (m : String) (cache cache₂ : Cache) :
    (getAllFeatureFlags (some tok) (.resp r) cache).cache = cache ∧
    (@getAllFeatureFlags α (some tok) (FetchOutcome.netThrow m) cache).cache
      = cache ∧
    (getAllFeatureFlags (some tok) (.resp r) cache).fetches = 1 ∧
    (r.ok = true →
      (getAllFeatureFlags (some tok) (.resp r) cache).result =
        .ok r.json.flags) ∧
    (getAllFeatureFlags (some tok) (.resp r) cache).result =
      (getAllFeatureFlags (some tok) (.resp r) cache₂).result := by
  by_cases h : r.ok = true
  · simp [getAllFeatureFlags, h]
  · simp [getAllFeatureFlags, h]

/-- Witness for C9 at a concrete ok response. -/
theorem getAllFeatureFlags_passthrough_witness :
    (getAllFeatureFlags (some "tok")
      (FetchOutcome.resp ⟨true, "OK", ⟨[(5 : Nat)]⟩⟩) cacheOne).result =
      .ok [5] :=
  (getAllFeatureFlags_passthrough "tok" ⟨true, "OK", ⟨[(5 : Nat)]⟩⟩ "down"
    cacheOne []).2.2.2.1 rfl

/-- C10: verdicts enter the cache only from a successful response: on a
missing token or a failing request the check leaves the cache exactly as
it was (the returned `false` is not stored), and whenever the cache did
change, an ok response was received and the new state is the old cache
with that response's verdict recorded. -/
theorem failure_never_cached (env : Env) (cache : Cache) (flagKey : String) :
    ((∀ tok, env.token = some tok →
        outcomeFails (env.statusResp flagKey tok)) →
      (isFeatureEnabled env cache flagKey).2 = cache) ∧
    ((isFeatureEnabled env cache flagKey).2 ≠ cache →
      ∃ tok r, env.token = some tok ∧
        env.statusResp flagKey tok = FetchOutcome.resp r ∧ r.ok = true ∧
        (isFeatureEnabled env cache flagKey).2 =
          cacheInsert cache (cacheKeyOf flagKey) ⟨r.json.enabled, env.now⟩ ∧
        (isFeatureEnabled env cache flagKey).1 = r.json.enabled) := by
  constructor
  · intro hfail
    rcases hcase : cacheLookup cache (cacheKeyOf flagKey) with _ | e
    · have hmiss : ∀ e2, cacheLookup cache (cacheKeyOf flagKey) = some e2 →
          CACHE_TTL ≤ env.now - e2.timestamp := by
        intro e2 he2
        rw [hcase] at he2
        exact Option.noConfusion he2
      rw [isFeatureEnabled_of_stale env cache flagKey hmiss,
        fetchAndCache_fails env cache flagKey hfail]
    · by_cases hf : env.now - e.timestamp < CACHE_TTL
      · rw [isFeatureEnabled_hit env cache flagKey e hcase hf]
      · have hmiss : ∀ e2, cacheLookup cache (cacheKeyOf flagKey) = some e2 →
            CACHE_TTL ≤ env.now - e2.timestamp := by
          intro e2 he2
          rw [hcase] at he2
          injection he2 with h
          rw [← h]
          exact Nat.not_lt.mp hf
        rw [isFeatureEnabled_of_stale env cache flagKey hmiss,
          fetchAndCache_fails env cache flagKey hfail]
  · intro hch
    rcases hcase : cacheLookup cache (cacheKeyOf flagKey) with _ | e
    · have hmiss : ∀ e2, cacheLookup cache (cacheKeyOf flagKey) = some e2 →
          CACHE_TTL ≤ env.now - e2.timestamp := by
        intro e2 he2
        rw [hcase] at he2
        exact Option.noConfusion he2
      rw [isFeatureEnabled_of_stale env cache flagKey hmiss] at hch ⊢
      exact fetchAndCache_changed env cache flagKey hch
    · by_cases hf : env.now - e.timestamp < CACHE_TTL
      · rw [isFeatureEnabled_hit env cache flagKey e hcase hf] at hch
        exact absurd rfl hch
      · have hmiss : ∀ e2, cacheLookup cache (cacheKeyOf flagKey) = some e2 →
            CACHE_TTL ≤ env.now - e2.timestamp := by
          intro e2 he2
          rw [hcase] at he2
          injection he2 with h
          rw [← h]
          exact Nat.not_lt.mp hf
        rw [isFeatureEnabled_of_stale env cache flagKey hmiss] at hch ⊢
        exact fetchAndCache_changed env cache flagKey hch

/-- Witness for C10: an unreachable backend leaves the cache unchanged,
and a check that did change the cache got its verdict from an ok
response. -/
theorem failure_never_cached_witness :
    (isFeatureEnabled envDown cacheOne "gamma").2 = cacheOne ∧
    (∃ tok r, envFresh.token = some tok ∧
      envFresh.statusResp "delta" tok = FetchOutcome.resp r ∧ r.ok = true ∧
      (isFeatureEnabled envFresh [] "delta").2 =
        cacheInsert [] (cacheKeyOf "delta") ⟨r.json.enabled, envFresh.now⟩ ∧
      (isFeatureEnabled envFresh [] "delta").1 = r.json.enabled) :=
  ⟨(failure_never_cached envDown cacheOne "gamma").1
      (fun tok _ => trivial),
   (failure_never_cached envFresh [] "delta").2 (by decide)⟩

/-- C5: each admin mutation clears the cache only after the store write
succeeded — on a failing request (non-ok response or thrown error) it
throws and leaves the cache completely unchanged, and it clears the cache
exactly on success. -/
theorem mutations_persist_before_invalidate {α : Type} (tok : String)
    (o : FetchOutcome α) (oU : FetchOutcome Unit) (cache : Cache)
    (flagKey userId : String) (fd od : α) :
    ((outcomeFails o →
        (createFeatureFlag (some tok) o cache fd).isSuccess = false ∧
        (createFeatureFlag (some tok) o cache fd).cache = cache) ∧
      (¬ outcomeFails o →
        (createFeatureFlag (some tok) o cache fd).isSuccess = true ∧
        (createFeatureFlag (some tok) o cache fd).cache = [])) ∧
    ((outcomeFails o →
        (updateFeatureFlag (some tok) o cache flagKey fd).isSuccess
          = false ∧
        (updateFeatureFlag (some tok) o cache flagKey fd).cache = cache) ∧
      (¬ outcomeFails o →
        (updateFeatureFlag (some tok) o cache flagKey fd).isSuccess
          = true ∧
        (updateFeatureFlag (some tok) o cache flagKey fd).cache = [])) ∧
    ((outcomeFails oU →
        (deleteFeatureFlag (some tok) oU cache flagKey).isSuccess = false ∧
        (deleteFeatureFlag (some tok) oU cache flagKey).cache = cache) ∧
      (¬ outcomeFails oU →
        (deleteFeatureFlag (some tok) oU cache flagKey).isSuccess = true ∧
        (deleteFeatureFlag (some tok) oU cache flagKey).cache = [])) ∧
    ((outcomeFails o →
        (createFeatureOverride (some tok) o cache od).isSuccess = false ∧
        (createFeatureOverride (some tok) o cache od).cache = cache) ∧
      (¬ outcomeFails o →
        (createFeatureOverride (some tok) o cache od).isSuccess = true ∧
        (createFeatureOverride (some tok) o cache od).cache = [])) ∧
    ((outcomeFails oU →
        (deleteFeatureOverride (some tok) oU cache flagKey userId).isSuccess
          = false ∧
        (deleteFeatureOverride (some tok) oU cache flagKey userId).cache
          = cache) ∧
      (¬ outcomeFails oU →
        (deleteFeatureOverride (some tok) oU cache flagKey userId).isSuccess
          = true ∧
        (deleteFeatureOverride (some tok) oU cache flagKey userId).cache
          = [])) := by
  refine ⟨⟨?_, ?_⟩, ⟨?_, ?_⟩, ⟨?_, ?_⟩, ⟨?_, ?_⟩, ⟨?_, ?_⟩⟩ <;> intro h
  · cases o with
    | netThrow m => simp [createFeatureFlag, MutResult.isSuccess]
    | resp r =>
      simp only [outcomeFails] at h
      simp [createFeatureFlag, MutResult.isSuccess, h]
  · cases o with
    | netThrow m => exact absurd trivial h
    | resp r =>
      simp only [outcomeFails] at h
      have hok : r.ok = true := by simpa using h
      simp [createFeatureFlag, MutResult.isSuccess, hok,
        clearFeatureFlagCache]
  · cases o with
    | netThrow m => simp [updateFeatureFlag, MutResult.isSuccess]
    | resp r =>
      simp only [outcomeFails] at h
      simp [updateFeatureFlag, MutResult.isSuccess, h]
  · cases o with
    | netThrow m => exact absurd trivial h
    | resp r =>
      simp only [outcomeFails] at h
      have hok : r.ok = true := by simpa using h
      simp [updateFeatureFlag, MutResult.isSuccess, hok,
        clearFeatureFlagCache]
  · cases oU with
    | netThrow m => simp [deleteFeatureFlag, MutResult.isSuccess]
    | resp r =>
      simp only [outcomeFails] at h
      simp [deleteFeatureFlag, MutResult.isSuccess, h]
  · cases oU with
    | netThrow m => exact absurd trivial h
    | resp r =>
      simp only [outcomeFails] at h
      have hok : r.ok = true := by simpa using h
      simp [deleteFeatureFlag, MutResult.isSuccess, hok,
        clearFeatureFlagCache]
  · cases o with
    | netThrow m => simp [createFeatureOverride, MutResult.isSuccess]
    | resp r =>
      simp only [outcomeFails] at h
      simp [createFeatureOverride, MutResult.isSuccess, h]
  · cases o with
    | netThrow m => exact absurd trivial h
    | resp r =>
      simp only [outcomeFails] at h
      have hok : r.ok = true := by simpa using h
      simp [createFeatureOverride, MutResult.isSuccess, hok,
        clearFeatureFlagCache]
  · cases oU with
    | netThrow m => simp [deleteFeatureOverride, MutResult.isSuccess]
    | resp r =>
      simp only [outcomeFails] at h
      simp [deleteFeatureOverride, MutResult.isSuccess, h]
  · cases oU with
    | netThrow m => exact absurd trivial h
    | resp r =>
      simp only [outcomeFails] at h
      have hok : r.ok = true := by simpa using h
      simp [deleteFeatureOverride, MutResult.isSuccess, hok,
        clearFeatureFlagCache]

/-- Witness for C5: a thrown network error leaves the cache untouched,
and a successful override creation clears it. -/
theorem mutations_persist_before_invalidate_witness :
    (createFeatureFlag (some "tok") (FetchOutcome.netThrow "down") cacheOne
      (0 : Nat)).cache = cacheOne ∧
    (createFeatureOverride (some "tok")
      (FetchOutcome.resp ⟨true, "OK", (0 : Nat)⟩) cacheOne 0).cache = [] :=
  ⟨((mutations_persist_before_invalidate "tok"
      (FetchOutcome.netThrow "down") (FetchOutcome.netThrow "down") cacheOne
      "beta" "u1" 0 0).1.1 trivial).2,
   ((mutations_persist_before_invalidate "tok"
      (FetchOutcome.resp ⟨true, "OK", (0 : Nat)⟩)
      (FetchOutcome.resp ⟨true, "OK", ()⟩) cacheOne
      "beta" "u1" 0 0).2.2.2.1.2 (by decide)).2⟩

/-- C8: every admin operation called with no auth token throws
`Not authenticated`, performs zero backend requests, and leaves the cache
unchanged; that error is a different value from the request-failure error
under which a not-found response surfaces. -/
theorem admin_ops_require_auth {α : Type} (oF : FetchOutcome (FlagsData α))
    (o : FetchOutcome α) (oU : FetchOutcome Unit) (cache : Cache)
    (flagKey userId : String) (fd od : α) :
    getAllFeatureFlags none oF cache =
      ⟨.error .notAuthenticated, cache, 0⟩ ∧
    createFeatureFlag none o cache fd =
      ⟨.error .notAuthenticated, cache, 0⟩ ∧
    updateFeatureFlag none o cache flagKey fd =
      ⟨.error .notAuthenticated, cache, 0⟩ ∧
    deleteFeatureFlag none oU cache flagKey =
      ⟨.error .notAuthenticated, cache, 0⟩ ∧
    createFeatureOverride none o cache od =
      ⟨.error .notAuthenticated, cache, 0⟩ ∧
    deleteFeatureOverride none oU cache flagKey userId =
      ⟨.error .notAuthenticated, cache, 0⟩ ∧
    ∀ msg, AdminError.notAuthenticated ≠ AdminError.requestFailed msg :=
  ⟨rfl, rfl, rfl, rfl, rfl, rfl,
   fun _ h => AdminError.noConfusion h⟩

/-- Witness for C8 at concrete arguments. -/
theorem admin_ops_require_auth_witness :
    createFeatureFlag none (FetchOutcome.resp ⟨true, "OK", (0 : Nat)⟩)
      cacheOne 0 = ⟨.error .notAuthenticated, cacheOne, 0⟩ ∧
    AdminError.notAuthenticated ≠
      AdminError.requestFailed "Error fetching feature flags: Not Found" :=
  ⟨(admin_ops_require_auth (FetchOutcome.resp ⟨true, "OK", ⟨[(0 : Nat)]⟩⟩)
      (FetchOutcome.resp ⟨true, "OK", (0 : Nat)⟩)
      (FetchOutcome.resp ⟨true, "OK", ()⟩) cacheOne "beta" "u1" 0 0).2.1,
   (admin_ops_require_auth (FetchOutcome.resp ⟨true, "OK", ⟨[(0 : Nat)]⟩⟩)
      (FetchOutcome.resp ⟨true, "OK", (0 : Nat)⟩)
      (FetchOutcome.resp ⟨true, "OK", ()⟩) cacheOne "beta" "u1"
      0 0).2.2.2.2.2.2 "Error fetching feature flags: Not Found"⟩

/-- C6 counterexample: the cache key carries no user identity.  User A
(token `tokenA`, backend verdict `true`) checks flag `beta` and the
verdict is cached; user B (token `tokenB`, whose own backend verdict is
`false`) checks the same flag within the TTL and is served user A's cached
entry — the entry stored for one user's check is consulted and returned
for another user's check of the same flag. -/
theorem cache_entry_shared_between_users :
    isFeatureEnabled envUserA [] "beta" =
      (true, [(cacheKeyOf "beta", ⟨true, 0⟩)]) ∧
    (isFeatureEnabled envUserB [(cacheKeyOf "beta", ⟨true, 0⟩)] "beta").1 =
      true ∧
    (fetchAndCache envUserB [(cacheKeyOf "beta", ⟨true, 0⟩)] "beta").1 =
      false := by
  decide

/-- C6 amended: every cache entry is keyed by the flag key alone
(`feature_flag:${flagKey}`); whenever a fresh entry is present, the check
returns its verdict identically for every caller — any token, any backend
behaviour — so distinct users share the entry for the same flag. -/
theorem cache_hit_ignores_caller (tok₁ tok₂ : Option String)
    (resp₁ resp₂ : String → String → FetchOutcome StatusData)
    (now : Timestamp) (cache : Cache) (flagKey : String) (e : CacheEntry)
    (hl : cacheLookup cache (cacheKeyOf flagKey) = some e)
    (hfresh : now - e.timestamp < CACHE_TTL) :
    isFeatureEnabled ⟨tok₁, resp₁, now⟩ cache flagKey = (e.enabled, cache) ∧
    isFeatureEnabled ⟨tok₂, resp₂, now⟩ cache flagKey = (e.enabled, cache) :=
  ⟨isFeatureEnabled_hit ⟨tok₁, resp₁, now⟩ cache flagKey e hl hfresh,
   isFeatureEnabled_hit ⟨tok₂, resp₂, now⟩ cache flagKey e hl hfresh⟩

/-- Witness for the amended C6 at users A and B. -/
theorem cache_hit_ignores_caller_witness :
    isFeatureEnabled envUserB [(cacheKeyOf "beta", ⟨true, 0⟩)] "beta" =
      (true, [(cacheKeyOf "beta", ⟨true, 0⟩)]) :=
  (cache_hit_ignores_caller (some "tokenB") (some "tokenA") respByUser
    respByUser 1000 [(cacheKeyOf "beta", ⟨true, 0⟩)] "beta" ⟨true, 0⟩
    (by decide) (by decide)).1

/-- C7 counterexample: a successful `createFeatureOverride` does not
remove just the one `(flagKey, userId)` entry — with entries cached for
flags `alpha` and `beta`, creating an override succeeds and the entry for
the unrelated flag `beta` is gone as well. -/
theorem createOverride_clears_unrelated_entry :
    (createFeatureOverride (some "tok")
      (FetchOutcome.resp ⟨true, "OK", (0 : Nat)⟩) cacheTwoFlags
      0).isSuccess = true ∧
    cacheLookup cacheTwoFlags (cacheKeyOf "beta") = some ⟨false, 0⟩ ∧
    cacheLookup
      (createFeatureOverride (some "tok")
        (FetchOutcome.resp ⟨true, "OK", (0 : Nat)⟩) cacheTwoFlags 0).cache
      (cacheKeyOf "beta") = none := by
  decide

/-- C7 amended: a successful `createFeatureOverride` or
`deleteFeatureOverride` clears the entire verdict cache — no entry, for
any flag or user, survives the mutation. -/
theorem override_mutations_clear_whole_cache {α : Type} (tok : String)
    (r : HttpResp α) (rU : HttpResp Unit) (cache : Cache) (od : α)
    (flagKey userId : String) (hok : r.ok = true) (hokU : rU.ok = true) :
    (createFeatureOverride (some tok) (.resp r) cache od).cache = [] ∧
    (deleteFeatureOverride (some tok) (.resp rU) cache flagKey
      userId).cache = [] := by
  constructor
  · simp [createFeatureOverride, hok, clearFeatureFlagCache]
  · simp [deleteFeatureOverride, hokU, clearFeatureFlagCache]

/-- Witness for the amended C7 at a concrete successful pair of calls. -/
theorem override_mutations_clear_whole_cache_witness :
    (createFeatureOverride (some "tok")
      (FetchOutcome.resp ⟨true, "OK", (0 : Nat)⟩) cacheTwoFlags 0).cache
      = [] ∧
    (deleteFeatureOverride (some "tok")
      (FetchOutcome.resp ⟨true, "OK", ()⟩) cacheTwoFlags "beta"
      "u1").cache = [] :=
  override_mutations_clear_whole_cache "tok" ⟨true, "OK", (0 : Nat)⟩
    ⟨true, "OK", ()⟩ cacheTwoFlags 0 "beta" "u1" rfl rfl

end FeatureFlags

namespace ResolutionEngine

/-- C4 (the resolution engine is modelled from the spec): an override
takes precedence over every other rule — `evaluate` with an override
present returns the override's value whatever the flag's `enabled` bit,
rollout, tier requirement or date window; in particular, a globally
disabled flag with override `{enabled: true}` for user U resolves to
`true` for U and to `false` for every other, non-overridden user. -/
theorem evaluate_override_supremacy :
    (∀ (flag : FlagDefinition) (o : FlagOverride) (p : Principal)
        (now : FeatureFlags.Timestamp),
      evaluate flag (some o) p now = o.enabled) ∧
    (∀ (flag : FlagDefinition) (pU pV : Principal)
        (now : FeatureFlags.Timestamp),
      flag.enabled = false → pV.userId ≠ pU.userId →
      resolve [⟨flag.key, pU.userId, true⟩] flag pU now = true ∧
      resolve [⟨flag.key, pU.userId, true⟩] flag pV now = false) := by
  constructor
  · intro flag o p now
    rfl
  · intro flag pU pV now hdis hne
    constructor
    · have hov : lookupOverride [⟨flag.key, pU.userId, true⟩] flag.key
          pU.userId = some ⟨flag.key, pU.userId, true⟩ := by
        simp [lookupOverride]
      simp [resolve, hov, evaluate]
    · have hbe : (pU.userId == pV.userId) = false :=
        beq_eq_false_iff_ne.mpr (fun h => hne h.symm)
      have hov : lookupOverride [⟨flag.key, pU.userId, true⟩] flag.key
          pV.userId = none := by
        simp [lookupOverride, hbe]
      simp [resolve, hov, evaluate, hdis]

/-- Witness for C4: a disabled flag at full rollout, overridden for
user u1 only. -/
theorem evaluate_override_supremacy_witness :
    resolve [⟨"beta", "u1", true⟩]
      ⟨"beta", false, none, 100, none, none⟩ ⟨"u1", .free⟩ 5 = true ∧
    resolve [⟨"beta", "u1", true⟩]
      ⟨"beta", false, none, 100, none, none⟩ ⟨"u2", .enterprise⟩ 5 = false :=
  evaluate_override_supremacy.2 ⟨"beta", false, none, 100, none, none⟩
    ⟨"u1", .free⟩ ⟨"u2", .enterprise⟩ 5 rfl (by decide)

end ResolutionEngine
